import Mathlib

/-!
Verification of the converted NF-kB luciferase reporter assay protocol
(`ot2plr.py` and the high-level variant) against its specification.

The protocol body is embedded shallowly: module constants become Lean
constants, labware locations become an inductive `Loc`, tips are pairs
of (rack object id, position), the run body becomes a list of commands
interpreted against the tip stream, and each hardware call emits an
abstract primitive `Event`.  Python name-resolution failures in
`_build_deck` and `run` are modelled by a separate read/write-scoping
scan of the statement lists of those functions.
-/

/-- Pipette volumes and flow rates, embedded as integers in hundredths of a
microliter (respectively hundredths of a microliter per second).  Every
numeric value of the source — including the scaled volumes 100 * 1.2 and
50 * 1.5 and the flow rates 0.2, 0.3, 0.5, 0.75 — is an exact multiple of
0.01 and is exact in the source's float arithmetic, so this fixed-point
embedding is faithful. -/
abbrev Vol := ℤ

/-- Source: `Coordinate(x=..., y=..., z=...)` offsets passed to
aspirate/dispense/mix, in hundredths of a millimeter. -/
structure Coordinate where
  x : ℤ
  y : ℤ
  z : ℤ
deriving DecidableEq

/-- An addressable location: a well of a plate `(labware, row, column)` or a
reservoir channel `(labware, channel index)`. -/
inductive Loc
| well (labware : String) (row : Nat) (col : Nat)
| channel (labware : String) (idx : Nat)
deriving DecidableEq

/-- A physical tip, identified by the rack object holding it and its
position index within that rack.  Two list entries denote the same
physical tip exactly when they are equal. -/
structure Tip where
  rackId : Nat
  pos : Nat
deriving DecidableEq

/-- A tip rack object: `rackId` is the identity of the constructed instance
(the source constructs exactly one, `tiprack_i`), `numTips` its capacity. -/
structure TipRack where
  rackId : Nat
  numTips : Nat
deriving DecidableEq

/-- Modelled from the spec: iterating a tip rack (`for tip in rack` in
`_tip_gen`) yields its tips in within-rack position order; the rack class
itself is repository code not under `src/` (spec 4.2: rack order, then
within-rack position order). -/
def TipRack.tipList (r : TipRack) : List Tip :=
  (List.range r.numTips).map (fun p => Tip.mk r.rackId p)

/-- The full tip sequence of `_tip_gen(tip_racks)`: all tips of each rack,
racks in list order, positions in order within each rack. -/
def tipSeq (racks : List TipRack) : List Tip :=
  racks.flatMap TipRack.tipList

/-- The result of the k-th `next()` call (0-based) on the generator
`_tip_gen(tip_racks)`: the k-th element of the flattened sequence, or the
`RuntimeError("Out of tips!")` raised after the loops are exhausted. -/
def tipGenNext (racks : List TipRack) (k : Nat) : Except String Tip :=
  match (tipSeq racks)[k]? with
  | some t => Except.ok t
  | none => Except.error "Out of tips!"

-- ──────────────────────────────────────
-- Module constants (ot2plr.py lines 17-21)

def MEDIUM_VOL : Vol := 10000
def PBS_VOL : Vol := 5000
def LYSIS_VOL : Vol := 3000
def LUC_VOL : Vol := 10000
def TOTAL_COL : Nat := 12

-- ──────────────────────────────────────
-- Deck model (dataflow of `_build_deck`)

/-- Modelled from the spec: `Deck.assign_child_resource` (repository code
not under `src/`) binds the labware instance to a slot and the bound
instance is the labware itself (spec 4.1: `assign(labware, slot)` binds a
labware instance; assign followed by lookup returns the identical
instance).  The binding therefore returns its argument unchanged. -/
def assign_child_resource (r : TipRack) (slot : Nat) : TipRack := r

/-- Source: `tiprack_slots = [8, 11, 1, 4]` -/
def tiprack_slots : List Nat := [8, 11, 1, 4]

/-- Source: `tiprack_i = opentrons_96_tiprack_300ul(...)`: the single rack instance
constructed in `_build_deck`, holding 96 tips. -/
def tiprack_i : TipRack := TipRack.mk 0 96

/-- Source: `tiprack = [lh.deck.assign_child_resource(tiprack_i, slot=slot_i) for
slot_i in tiprack_slots]`: the deck's tip-rack list, one entry per slot,
each the result of assigning the same instance `tiprack_i`. -/
def tip_racks : List TipRack :=
  tiprack_slots.map (fun s => assign_child_resource tiprack_i s)

/-- The column-`c` well of the working plate's first row (row A). -/
def cellLoc (c : Nat) : Loc := Loc.well "working_plate" 0 c

/-- Modelled from the spec: `working_plate.rows()[0]` — the first row of the
96-well working plate, 12 wells in column order (plate geometry is
repository code not under `src/`; spec glossary: columns A1-A12, and the
sample-columns contract speaks of the plate's row length). -/
def plateRowLength : Nat := 12

/-- Source: `deck["working_plate"].rows()[0]` as a list of locations. -/
def working_plate_row0 : List Loc :=
  (List.range plateRowLength).map cellLoc

/-- The slice `rows()[0][:count]` used to select the sample columns
(`cells_all` uses `count = TOTAL_COL`); Python slicing truncates at the
end of the list. -/
def sample_columns (count : Nat) : List Loc :=
  working_plate_row0.take count

/-- Source: `cells_all = deck["working_plate"].rows()[0][:TOTAL_COL]` -/
def cells_all : List Loc := sample_columns TOTAL_COL

/-- Source: `pbs = deck["reagent_res"].wells()[0]` -/
def pbs : Loc := Loc.channel "reagent_stock" 0
/-- Source: `lysis = deck["reagent_res"].wells()[1]` -/
def lysis : Loc := Loc.channel "reagent_stock" 1
/-- Source: `luciferase = deck["reagent_res"].wells()[2]` -/
def luciferase : Loc := Loc.channel "reagent_stock" 2
/-- Source: `waste = deck["waste_res"].wells()[0]` -/
def waste : Loc := Loc.channel "waste_res" 0

-- ──────────────────────────────────────
-- Hardware primitives and the run body

/-- Modelled from the spec: the abstract hardware primitives of the driver
boundary (spec 6).  The `LiquidHandler` forwarding layer is repository code
not under `src/`; each `lh.setup / pick_up_tips / aspirate / air_gap /
dispense / mix / drop_tips / finish` call and each `backend.delay` call
issues exactly one corresponding primitive.  Omitted offsets are `none`;
`delay` durations are in seconds. -/
inductive Event
| setup
| pickUpTips (t : Tip)
| aspirate (loc : Loc) (vol : Vol) (flowRate : ℤ) (offset : Option Coordinate)
| airGap (vol : Vol)
| dispense (loc : Loc) (vol : Vol) (flowRate : ℤ) (offset : Option Coordinate)
| mix (loc : Loc) (vol : Vol) (repetitions : Nat) (flowRate : ℤ) (offset : Option Coordinate)
| delay (seconds : ℤ)
| dropTips
| finish
deriving DecidableEq

/-- The fatal mid-run error: `RuntimeError("Out of tips!")` escaping from
`next(tips)`. -/
inductive RunErr
| outOfTips
deriving DecidableEq

/-- A command of the straightened run body: either issue a primitive, or
acquire the next tip from the generator (which issues `pickUpTips` on
success and raises exhaustion on an empty stream). -/
inductive Cmd
| emit (e : Event)
| acquireTip
deriving DecidableEq

/-- Interpreter for the run body: threads the remaining tip stream through
the commands, collecting the primitives issued so far; on exhaustion the
trace stops at the failure point (the Python exception propagates, so no
later primitive — in particular no `finish` — is issued). -/
def exec : List Cmd → List Tip → List Event × Option RunErr
| [], _ => ([], none)
| Cmd.emit e :: rest, tips =>
  let r := exec rest tips
  (e :: r.1, r.2)
| Cmd.acquireTip :: _, [] => ([], some RunErr.outOfTips)
| Cmd.acquireTip :: rest, t :: tips =>
  let r := exec rest tips
  (Event.pickUpTips t :: r.1, r.2)

/-- Step 1 of `run` — remove spent medium (ot2plr.py lines 77-83): per cell,
pick up a fresh tip, aspirate `MEDIUM_VOL * 1.2` from the cell, dispense the
same volume to waste, drop the tip. -/
def step1Prog : List Cmd :=
  cells_all.flatMap (fun c =>
    [Cmd.acquireTip,
     Cmd.emit (Event.aspirate c (MEDIUM_VOL * 12 / 10) 20
       (some (Coordinate.mk (-250) 0 20))),
     Cmd.emit (Event.dispense waste (MEDIUM_VOL * 12 / 10) 300
       (some (Coordinate.mk 0 0 (-500)))),
     Cmd.emit Event.dropTips])

/-- Step 2 of `run` — PBS wash, add (lines 86-92): one tip for the whole
step; per cell, aspirate `PBS_VOL` from the PBS channel, draw a 20 uL air
gap, dispense `PBS_VOL + 20` into the cell. -/
def step2Prog : List Cmd :=
  [Cmd.acquireTip] ++
  cells_all.flatMap (fun c =>
    [Cmd.emit (Event.aspirate pbs PBS_VOL 300 none),
     Cmd.emit (Event.airGap 2000),
     Cmd.emit (Event.dispense c (PBS_VOL + 2000) 30
       (some (Coordinate.mk 0 0 (-200))))]) ++
  [Cmd.emit Event.dropTips]

/-- Step 3 of `run` — PBS wash, remove (lines 95-101): per cell, fresh tip,
aspirate `PBS_VOL * 1.5` from the cell, dispense to waste, drop. -/
def step3Prog : List Cmd :=
  cells_all.flatMap (fun c =>
    [Cmd.acquireTip,
     Cmd.emit (Event.aspirate c (PBS_VOL * 15 / 10) 20
       (some (Coordinate.mk (-250) 0 20))),
     Cmd.emit (Event.dispense waste (PBS_VOL * 15 / 10) 300
       (some (Coordinate.mk 0 0 (-500)))),
     Cmd.emit Event.dropTips])

/-- Step 4 of `run` — add lysis buffer (lines 104-112): one tip for the
whole step; per cell, aspirate `LYSIS_VOL` from the lysis channel, wait 2 s,
dispense into the cell, wait 2 s; after dropping the tip, a whole-plate
3-minute (180 s) delay. -/
def step4Prog : List Cmd :=
  [Cmd.acquireTip] ++
  cells_all.flatMap (fun c =>
    [Cmd.emit (Event.aspirate lysis LYSIS_VOL 50 none),
     Cmd.emit (Event.delay 2),
     Cmd.emit (Event.dispense c LYSIS_VOL 30
       (some (Coordinate.mk 0 0 500))),
     Cmd.emit (Event.delay 2)]) ++
  [Cmd.emit Event.dropTips, Cmd.emit (Event.delay 180)]

/-- Step 5 of `run` — add luciferase reagent (lines 115-123): per cell,
fresh tip, aspirate `LUC_VOL` from the luciferase channel, wait 2 s,
dispense into the cell, mix 75 uL three times in place, drop the tip. -/
def step5Prog : List Cmd :=
  cells_all.flatMap (fun c =>
    [Cmd.acquireTip,
     Cmd.emit (Event.aspirate luciferase LUC_VOL 75 none),
     Cmd.emit (Event.delay 2),
     Cmd.emit (Event.dispense c LUC_VOL 75
       (some (Coordinate.mk 0 0 (-50)))),
     Cmd.emit (Event.mix c 7500 3 300 (some (Coordinate.mk 0 0 50))),
     Cmd.emit Event.dropTips])

/-- The straightened body of `run` after deck construction: `lh.setup()`,
the five steps in declared order, then `lh.finish()`. -/
def runProg : List Cmd :=
  [Cmd.emit Event.setup] ++
  step1Prog ++ step2Prog ++ step3Prog ++ step4Prog ++ step5Prog ++
  [Cmd.emit Event.finish]

/-- Execution of the run body against an initial tip stream: the primitive
trace issued, and the fatal error if the stream runs out. -/
def runBody (tips : List Tip) : List Event × Option RunErr :=
  exec runProg tips

/-- Source: `tips = _tip_gen(deck["tip_racks"])` — the tip stream of the
actual deck (four aliases of the same 96-tip rack). -/
def fullTips : List Tip := tipSeq tip_racks

/-- The trace of a full run with the actual deck's tip stream. -/
def runTrace : List Event := (runBody fullTips).1

/-- Tips are consumed in stream order; step 1 uses tips 0-11, step 2 tip 12,
step 3 tips 13-24, step 4 tip 25, step 5 tips 26-37.  The per-step traces
below execute each step's program against the correspondingly advanced
stream, so that the whole-run trace decomposes into them. -/
def step1Trace : List Event := (exec step1Prog fullTips).1

/-- Trace of step 2 within the full run (stream advanced by 12 tips). -/
def step2Trace : List Event := (exec step2Prog (fullTips.drop 12)).1

/-- Trace of step 3 within the full run (stream advanced by 13 tips). -/
def step3Trace : List Event := (exec step3Prog (fullTips.drop 13)).1

/-- Trace of step 4 within the full run (stream advanced by 25 tips). -/
def step4Trace : List Event := (exec step4Prog (fullTips.drop 25)).1

/-- Trace of step 5 within the full run (stream advanced by 26 tips). -/
def step5Trace : List Event := (exec step5Prog (fullTips.drop 26)).1

-- ──────────────────────────────────────
-- Event matchers

/-- True exactly on `pickUpTips` events. -/
def Event.isPickUp : Event → Bool
| Event.pickUpTips _ => true
| _ => false

/-- True exactly on `dropTips` events. -/
def Event.isDrop : Event → Bool
| Event.dropTips => true
| _ => false

/-- True exactly on `mix` events. -/
def Event.isMix : Event → Bool
| Event.mix _ _ _ _ _ => true
| _ => false

/-- True exactly on `airGap` events. -/
def Event.isAirGap : Event → Bool
| Event.airGap _ => true
| _ => false

/-- True exactly on the `finish` event. -/
def Event.isFinish : Event → Bool
| Event.finish => true
| _ => false

/-- True exactly on aspirates drawing from the given location. -/
def Event.isAspFrom (l : Loc) : Event → Bool
| Event.aspirate l2 _ _ _ => decide (l2 = l)
| _ => false

/-- True exactly on dispenses delivering to the given location. -/
def Event.isDispTo (l : Loc) : Event → Bool
| Event.dispense l2 _ _ _ => decide (l2 = l)
| _ => false

/-- The working-plate column addressed by an event, if any: aspirates,
dispenses and mixes at a first-row well of the working plate. -/
def Event.targetCol : Event → Option Nat
| Event.aspirate (Loc.well "working_plate" 0 c) _ _ _ => some c
| Event.dispense (Loc.well "working_plate" 0 c) _ _ _ => some c
| Event.mix (Loc.well "working_plate" 0 c) _ _ _ _ => some c
| _ => none

/-- Adjacent pairs of a trace, for stating that one primitive immediately
follows another. -/
def pairList (l : List Event) : List (Event × Event) :=
  l.zip l.tail

/-- Adjacent triples of a trace. -/
def tripleList (l : List Event) : List (Event × Event × Event) :=
  l.zip (l.tail.zip (l.tail.tail))

-- ──────────────────────────────────────
-- Python name-resolution model for `_build_deck` and `run`

/-- A Python runtime name error: reading a function-local name before its
assignment (`UnboundLocalError`, a subclass of `NameError`), or reading a
name bound neither locally nor at module/builtin level (`NameError`). -/
inductive PyErr
| unboundLocal (n : String)
| nameError (n : String)
deriving DecidableEq

/-- One statement of a Python function body: the names its expressions read,
in evaluation order (reads happen before the statement's own assignment),
the local name it assigns if any, and whether it issues a hardware
primitive (setup / pick_up_tips / aspirate / air_gap / dispense / mix /
delay / drop_tips / finish). -/
structure Stmt where
  reads : List String
  writes : Option String
  prim : Bool
deriving DecidableEq

/-- A Python function: parameter names and body statements in source order
(loop bodies listed once, after the loop header's own reads). -/
structure PyFunc where
  params : List String
  body : List Stmt
deriving DecidableEq

/-- The local names of a function: its parameters and every name assigned
anywhere in its body (Python decides locality statically from assignments). -/
def localNames (f : PyFunc) : List String :=
  f.params ++ f.body.filterMap Stmt.writes

/-- How a single name read resolves, given the function's local-name set,
the locals bound so far, and the module/builtin globals. -/
def classifyRead (globals locals bound : List String) (n : String) : Option PyErr :=
  if n ∈ locals then
    if n ∈ bound then none else some (PyErr.unboundLocal n)
  else if n ∈ globals then none
  else some (PyErr.nameError n)

/-- Scan the statements in order, tracking bound locals; returns the index
of the first failing statement and its error, if any. -/
def firstErrIdx (globals locals : List String) :
    List String → Nat → List Stmt → Option (Nat × PyErr)
| _, _, [] => none
| bound, k, s :: rest =>
  match s.reads.findSome? (classifyRead globals locals bound) with
  | some e => some (k, e)
  | none => firstErrIdx globals locals (bound ++ s.writes.toList) (k + 1) rest

/-- The first name-resolution error raised when the function body runs, with
the index of the statement where it occurs. -/
def pyFirstError (globals : List String) (f : PyFunc) : Option (Nat × PyErr) :=
  firstErrIdx globals (localNames f) f.params 0 f.body

/-- True when the statement list reads the name before any statement
assigns it (reads of a statement are evaluated before its own write). -/
def readBeforeWrite : List Stmt → String → Bool
| [], _ => false
| s :: rest, n =>
  if n ∈ s.reads then true
  else if s.writes = some n then false
  else readBeforeWrite rest n

/-- Names bound at module level of `ot2plr.py`: the nine imported names, the
five constants, the three functions, and the builtin `next`.  `MyBackend` is
not among them. -/
def ot2plrGlobals : List String :=
  ["LiquidHandler", "OpentronsBackend", "Coordinate", "TipRack", "Plate",
   "corning_96_wellplate_360ul_flat", "nest_12_reservoir_15ml",
   "nest_1_reservoir_195ml", "opentrons_96_tiprack_300ul",
   "MEDIUM_VOL", "PBS_VOL", "LYSIS_VOL", "LUC_VOL", "TOTAL_COL",
   "_build_deck", "_tip_gen", "run", "next"]

/-- Names bound at module level of the high-level variant: the same, plus
`DPLiquidHandler`. -/
def assayGlobals : List String :=
  "DPLiquidHandler" :: ot2plrGlobals

/-- Statement list of `_build_deck` (identical in both variants): reads in
evaluation order, the local assigned, and whether a hardware primitive is
issued (none are — deck construction only binds labware). -/
def build_deck : PyFunc :=
  PyFunc.mk ["lh"]
  [Stmt.mk [] (some "tiprack_slots") false,
   Stmt.mk ["opentrons_96_tiprack_300ul", "tiprack"] (some "tiprack_i") false,
   Stmt.mk ["lh", "tiprack_i", "tiprack_slots"] (some "tiprack") false,
   Stmt.mk ["corning_96_wellplate_360ul_flat"] (some "working_plate") false,
   Stmt.mk ["lh", "working_plate"] none false,
   Stmt.mk ["nest_12_reservoir_15ml", "reagent_stock"] (some "reagent_stock") false,
   Stmt.mk ["lh", "reagent_stock"] none false,
   Stmt.mk ["nest_1_reservoir_195ml", "waste_res"] (some "waste_res") false,
   Stmt.mk ["lh", "waste_res"] none false,
   Stmt.mk ["tiprack", "working_plate", "reagent_stock", "waste_res"] none false]

/-- Statement list of `run` in `ot2plr.py` (lines 60-125), loop bodies
listed once after their loop header. -/
def ot2plr_run : PyFunc :=
  PyFunc.mk ["simulation"]
  [Stmt.mk ["MyBackend", "simulation"] (some "backend") false,
   Stmt.mk ["LiquidHandler", "backend"] (some "lh") false,
   Stmt.mk ["_build_deck", "lh"] (some "deck") false,
   Stmt.mk ["_tip_gen", "deck"] (some "tips") false,
   Stmt.mk ["deck"] (some "pbs") false,
   Stmt.mk ["deck"] (some "lysis") false,
   Stmt.mk ["deck"] (some "luciferase") false,
   Stmt.mk ["deck"] (some "waste") false,
   Stmt.mk ["deck", "TOTAL_COL"] (some "cells_all") false,
   Stmt.mk ["lh"] none true,
   Stmt.mk ["cells_all"] (some "cell") false,
   Stmt.mk ["lh", "next", "tips"] none true,
   Stmt.mk ["lh", "cell", "MEDIUM_VOL", "Coordinate"] none true,
   Stmt.mk ["lh", "waste", "MEDIUM_VOL", "Coordinate"] none true,
   Stmt.mk ["lh"] none true,
   Stmt.mk ["lh", "next", "tips"] none true,
   Stmt.mk ["cells_all"] (some "cell") false,
   Stmt.mk ["lh", "pbs", "PBS_VOL"] none true,
   Stmt.mk ["lh"] none true,
   Stmt.mk ["lh", "cell", "PBS_VOL", "Coordinate"] none true,
   Stmt.mk ["lh"] none true,
   Stmt.mk ["cells_all"] (some "cell") false,
   Stmt.mk ["lh", "next", "tips"] none true,
   Stmt.mk ["lh", "cell", "PBS_VOL", "Coordinate"] none true,
   Stmt.mk ["lh", "waste", "PBS_VOL", "Coordinate"] none true,
   Stmt.mk ["lh"] none true,
   Stmt.mk ["lh", "next", "tips"] none true,
   Stmt.mk ["cells_all"] (some "cell") false,
   Stmt.mk ["lh", "lysis", "LYSIS_VOL"] none true,
   Stmt.mk ["backend"] none true,
   Stmt.mk ["lh", "cell", "LYSIS_VOL", "Coordinate"] none true,
   Stmt.mk ["backend"] none true,
   Stmt.mk ["lh"] none true,
   Stmt.mk ["backend"] none true,
   Stmt.mk ["cells_all"] (some "cell") false,
   Stmt.mk ["lh", "next", "tips"] none true,
   Stmt.mk ["lh", "luciferase", "LUC_VOL"] none true,
   Stmt.mk ["backend"] none true,
   Stmt.mk ["lh", "cell", "LUC_VOL", "Coordinate"] none true,
   Stmt.mk ["lh", "cell", "Coordinate"] none true,
   Stmt.mk ["lh"] none true,
   Stmt.mk ["lh"] none true]

/-- Statement list of `run` in the high-level variant (lines 55-122). -/
def assay_run : PyFunc :=
  PyFunc.mk ["simulation"]
  [Stmt.mk ["MyBackend", "simulation"] (some "backend") false,
   Stmt.mk ["DPLiquidHandler", "backend"] (some "lh") false,
   Stmt.mk ["_build_deck", "lh"] (some "deck") false,
   Stmt.mk ["deck"] (some "pbs") false,
   Stmt.mk ["deck"] (some "lysis") false,
   Stmt.mk ["deck"] (some "luciferase") false,
   Stmt.mk ["deck", "TOTAL_COL"] (some "cells_all") false,
   Stmt.mk ["lh"] none true,
   Stmt.mk ["lh", "MEDIUM_VOL", "cells_all", "deck", "Coordinate"] none true,
   Stmt.mk ["lh", "PBS_VOL", "pbs", "cells_all", "deck", "Coordinate"] none true,
   Stmt.mk ["lh", "PBS_VOL", "cells_all", "deck", "Coordinate"] none true,
   Stmt.mk ["lh", "LYSIS_VOL", "lysis", "cells_all", "deck"] none true,
   Stmt.mk ["lh", "LUC_VOL", "luciferase", "cells_all", "deck"] none true]

/-- Calling `run(simulation)` in `ot2plr.py`: the first name-resolution
error of its body (independent of the argument's value, which only binds
the parameter `simulation`). -/
def runFirstError (simulation : Bool) : Option (Nat × PyErr) :=
  pyFirstError ot2plrGlobals ot2plr_run

/-- Calling `run(simulation)` in the high-level variant. -/
def assayRunFirstError (simulation : Bool) : Option (Nat × PyErr) :=
  pyFirstError assayGlobals assay_run

/-- Number of hardware-primitive statements executed before the first
name-resolution error of the function (all of them, when no error). -/
def primitivesBeforeError (globals : List String) (f : PyFunc) : Nat :=
  match pyFirstError globals f with
  | some (k, _) => ((f.body.take k).filter Stmt.prim).length
  | none => (f.body.filter Stmt.prim).length

/-- Declared default of the `simulation` parameter in `ot2plr.py` line 60:
`def run(simulation: bool = False)`. -/
def run_simulation_default : Bool := false

-- ──────────────────────────────────────
-- Helper definitions used by the claim theorems

/-- The aspirate primitive issued by the remove-medium step at column `i`:
volume `MEDIUM_VOL * 1.2`, flow rate 0.2, offset (-2.5, 0, 0.2). -/
def step1Asp (i : Nat) : Event :=
  Event.aspirate (cellLoc i) (MEDIUM_VOL * 12 / 10) 20 (some (Coordinate.mk (-250) 0 20))

/-- The dispense-to-waste primitive of the remove-medium step: same volume,
flow rate 3, offset (0, 0, -5). -/
def step1Disp : Event :=
  Event.dispense waste (MEDIUM_VOL * 12 / 10) 300 (some (Coordinate.mk 0 0 (-500)))

/-- The aspirate-from-PBS primitive of the wash-add step. -/
def step2Asp : Event := Event.aspirate pbs PBS_VOL 300 none

/-- The fixed 20 uL air gap of the wash-add step. -/
def step2Gap : Event := Event.airGap 2000

/-- The dispense primitive of the wash-add step at column `i`: wash volume
plus the air-gap volume, flow rate 0.3, offset (0, 0, -2). -/
def step2Disp (i : Nat) : Event :=
  Event.dispense (cellLoc i) (PBS_VOL + 2000) 30 (some (Coordinate.mk 0 0 (-200)))

/-- The column (respectively channel) index of a location. -/
def Loc.colIdx : Loc → Nat
| Loc.well _ _ c => c
| Loc.channel _ i => i

set_option maxRecDepth 8000

-- ──────────────────────────────────────
-- C1

/-- C1: for every boolean argument, `run()` raises a `NameError` before any
hardware primitive (setup, pick_up_tips, aspirate, dispense, finish) is
issued, in both variants.  The first statement of each variant's `run`
reads the undefined global `MyBackend` (statement index 0, with zero
primitive statements before the error); `_build_deck` itself, in both
variants, reads the local names `tiprack`, `reagent_stock` and `waste_res`
before their assignments, failing at its second statement with an
`UnboundLocalError` (a `NameError` subclass) on `tiprack`, likewise before
any primitive. -/
theorem run_fails_name_resolution_before_primitives (simulation : Bool) :
    runFirstError simulation = some (0, PyErr.nameError "MyBackend") ∧
    assayRunFirstError simulation = some (0, PyErr.nameError "MyBackend") ∧
    primitivesBeforeError ot2plrGlobals ot2plr_run = 0 ∧
    primitivesBeforeError assayGlobals assay_run = 0 ∧
    pyFirstError ot2plrGlobals build_deck = some (1, PyErr.unboundLocal "tiprack") ∧
    primitivesBeforeError ot2plrGlobals build_deck = 0 ∧
    readBeforeWrite build_deck.body "tiprack" = true ∧
    readBeforeWrite build_deck.body "reagent_stock" = true ∧
    readBeforeWrite build_deck.body "waste_res" = true :=
  ⟨rfl, rfl, rfl, rfl, rfl, rfl, rfl, rfl, rfl⟩

/-- Witness for C1 at the concrete argument `true`. -/
theorem run_fails_name_resolution_before_primitives_witness :
    runFirstError true = some (0, PyErr.nameError "MyBackend") :=
  (run_fails_name_resolution_before_primitives true).1

-- ──────────────────────────────────────
-- C2

/-- C2: for every tip inventory (list of racks whose flattened tip positions
are pairwise distinct) with N total tip positions, the first N `next()`
calls of `_tip_gen` each succeed, returning the N pairwise distinct tips in
rack order and then within-rack position order (the k-th call returns the
k-th element of the rack-major sequence), and the (N+1)-th call fails with
the tip-exhaustion error. -/
theorem tip_allocator_spec (racks : List TipRack)
    (h : (tipSeq racks).Nodup) :
    (∀ k (hk : k < (tipSeq racks).length),
      tipGenNext racks k = Except.ok ((tipSeq racks).get ⟨k, hk⟩)) ∧
    (∀ j k (hj : j < (tipSeq racks).length) (hk : k < (tipSeq racks).length),
      j ≠ k → (tipSeq racks).get ⟨j, hj⟩ ≠ (tipSeq racks).get ⟨k, hk⟩) ∧
    tipGenNext racks (tipSeq racks).length = Except.error "Out of tips!" := by
  refine ⟨fun k hk => ?_, fun j k hj hk hne heq => ?_, ?_⟩
  · simp [tipGenNext, List.getElem?_eq_getElem hk]
  · have h2 := (List.nodup_iff_injective_get.mp h) heq
    exact hne (congrArg Fin.val h2)
  · have h3 : (tipSeq racks)[(tipSeq racks).length]? = none := by
      simp
    simp [tipGenNext, h3]

/-- Witness for C2: a two-rack inventory with three distinct positions;
the first call returns the first tip and the fourth call exhausts. -/
theorem tip_allocator_spec_witness :
    tipGenNext [TipRack.mk 0 2, TipRack.mk 1 1] 0 = Except.ok (Tip.mk 0 0) ∧
    tipGenNext [TipRack.mk 0 2, TipRack.mk 1 1] 3 = Except.error "Out of tips!" := by
  have h := tip_allocator_spec [TipRack.mk 0 2, TipRack.mk 1 1] (by decide)
  exact ⟨h.1 0 (by decide), h.2.2⟩

-- ──────────────────────────────────────
-- C3

/-- Counterexample to C3: the reagent-add step (step 5, luciferase) does
not share one tip across its target locations — its trace contains twelve
tip acquisitions and twelve releases, one per column, not one. -/
theorem reagent_add_one_tip_per_location :
    step5Trace.countP Event.isPickUp = 12 ∧
    step5Trace.countP Event.isDrop = 12 ∧
    ¬ step5Trace.countP Event.isPickUp = 1 := by decide

/-- C3 as amended: medium removal, wash removal and reagent-add acquire and
release one tip per target location (twelve acquisitions and releases
each), while wash-add and lysis-add each use a single tip shared across all
their target locations (one acquisition, which is the step's first
primitive, and one release). -/
theorem per_step_tip_policy :
    step1Trace.countP Event.isPickUp = 12 ∧
    step1Trace.countP Event.isDrop = 12 ∧
    step3Trace.countP Event.isPickUp = 12 ∧
    step3Trace.countP Event.isDrop = 12 ∧
    step5Trace.countP Event.isPickUp = 12 ∧
    step5Trace.countP Event.isDrop = 12 ∧
    step2Trace.countP Event.isPickUp = 1 ∧
    step2Trace.countP Event.isDrop = 1 ∧
    step2Trace.head?.map Event.isPickUp = some true ∧
    step2Trace.getLast? = some Event.dropTips ∧
    step4Trace.countP Event.isPickUp = 1 ∧
    step4Trace.countP Event.isDrop = 1 ∧
    step4Trace.head?.map Event.isPickUp = some true := by decide

-- ──────────────────────────────────────
-- C4

/-- Counterexample to C4: selecting 13 sample columns from the 12-well row
does not fail — the slice truncates, returning the whole first row of 12
wells; no `InsufficientColumnsError` exists in the code. -/
theorem sample_columns_truncates_at_13 :
    sample_columns 13 = working_plate_row0 ∧
    (sample_columns 13).length = 12 ∧
    ¬ (sample_columns 13).length = 13 := by decide

/-- C4 as amended: for every count k, `sample_columns k` returns the first
`min k 12` wells of the working plate's first row in strictly increasing
column order; for k at most the row length that is exactly k wells, and for
k greater than the row length the slice truncates to the full row instead
of failing. -/
theorem sample_columns_spec (k : Nat) :
    sample_columns k = ((List.range plateRowLength).take k).map cellLoc ∧
    (sample_columns k).length = min k plateRowLength ∧
    (sample_columns k).Pairwise (fun a b => Loc.colIdx a < Loc.colIdx b) := by
  refine ⟨?_, ?_, ?_⟩
  · simp [sample_columns, working_plate_row0, List.map_take]
  · simp [sample_columns, working_plate_row0]
  · have h2 : working_plate_row0.Pairwise (fun a b => Loc.colIdx a < Loc.colIdx b) := by
      rw [working_plate_row0, List.pairwise_map]
      simpa [cellLoc, Loc.colIdx] using List.pairwise_lt_range plateRowLength
    exact h2.sublist (List.take_sublist _ _)

/-- Witness for C4 (amended) at the concrete count 5. -/
theorem sample_columns_spec_witness :
    (sample_columns 5).length = min 5 plateRowLength :=
  (sample_columns_spec 5).2.1

-- ──────────────────────────────────────
-- C5

/-- Counterexample to C5: the declared default of `run`'s `simulation`
parameter in `ot2plr.py` is `False` — real-hardware mode, not the
simulation-safe mode the claim states. -/
theorem run_default_not_simulation_safe :
    run_simulation_default = false ∧ ¬ run_simulation_default = true := by decide

/-- C5 as amended: `run(simulation: bool)` defaults to `simulation = False`
(real-hardware mode) when the argument is omitted — only the module's main
guard passes `simulation=True` explicitly; on success the body executes the
full protocol end-to-end and issues `finish()` exactly once, as the last
primitive after the last transfer step, and on tip exhaustion the trace
stops at the failing acquisition with the error propagated and no
`finish()` issued. -/
theorem run_entry_contract :
    run_simulation_default = false ∧
    (runBody fullTips).2 = none ∧
    runTrace.countP Event.isFinish = 1 ∧
    runTrace.getLast? = some Event.finish ∧
    (runBody (fullTips.take 1)).2 = some RunErr.outOfTips ∧
    (runBody (fullTips.take 1)).1.countP Event.isFinish = 0 := by decide

-- ──────────────────────────────────────
-- C6

/-- C6: for every target column, the remove-medium step emits exactly one
aspirate from that column, with volume `MEDIUM_VOL * 1.2`, and that
aspirate is immediately followed by the (unique matching) dispense of the
same volume to the waste channel; the step emits no mix and no air gap. -/
theorem remove_medium_aspirate_dispense_pairs (i : Fin TOTAL_COL) :
    step1Trace.countP (Event.isAspFrom (cellLoc i.1)) = 1 ∧
    step1Trace.countP (fun e => decide (e = step1Asp i.1)) = 1 ∧
    (pairList step1Trace).countP
      (fun p => decide (p.1 = step1Asp i.1) && decide (p.2 = step1Disp)) = 1 ∧
    step1Trace.countP Event.isMix = 0 ∧
    step1Trace.countP Event.isAirGap = 0 := by
  revert i; decide

/-- Witness for C6 at the first column. -/
theorem remove_medium_aspirate_dispense_pairs_witness :
    step1Trace.countP (Event.isAspFrom (cellLoc 0)) = 1 ∧
    step1Trace.countP (fun e => decide (e = step1Asp 0)) = 1 ∧
    (pairList step1Trace).countP
      (fun p => decide (p.1 = step1Asp 0) && decide (p.2 = step1Disp)) = 1 ∧
    step1Trace.countP Event.isMix = 0 ∧
    step1Trace.countP Event.isAirGap = 0 :=
  remove_medium_aspirate_dispense_pairs ⟨0, by decide⟩

-- ──────────────────────────────────────
-- C7

/-- C7: for every target column, the wash-add step emits exactly one
dispense to that column, of the wash volume plus the fixed 20 uL air-gap
volume, and that dispense is the third member of exactly one adjacent
triple aspirate-from-PBS, air gap of 20, dispense — i.e. the three
primitives occur in that order for the column. -/
theorem wash_add_aspirate_airgap_dispense (i : Fin TOTAL_COL) :
    step2Trace.countP (Event.isDispTo (cellLoc i.1)) = 1 ∧
    step2Trace.countP (fun e => decide (e = step2Disp i.1)) = 1 ∧
    (tripleList step2Trace).countP (fun p =>
      decide (p.1 = step2Asp) && decide (p.2.1 = step2Gap) &&
      decide (p.2.2 = step2Disp i.1)) = 1 := by
  revert i; decide

/-- Witness for C7 at the first column. -/
theorem wash_add_aspirate_airgap_dispense_witness :
    step2Trace.countP (Event.isDispTo (cellLoc 0)) = 1 ∧
    step2Trace.countP (fun e => decide (e = step2Disp 0)) = 1 ∧
    (tripleList step2Trace).countP (fun p =>
      decide (p.1 = step2Asp) && decide (p.2.1 = step2Gap) &&
      decide (p.2.2 = step2Disp 0)) = 1 :=
  wash_add_aspirate_airgap_dispense ⟨0, by decide⟩

-- ──────────────────────────────────────
-- C8

/-- C8: with a tip inventory of exactly one tip, the run issues setup, then
fully processes the first column of the remove-medium step (acquisition,
aspirate, dispense to waste, release), and fails with tip exhaustion at the
second tip acquisition — the remove-medium step's second target column;
nothing after the failure (in particular no `finish`) is issued. -/
theorem single_tip_exhausts_at_second_column (t : Tip) :
    runBody [t] =
      ([Event.setup, Event.pickUpTips t,
        Event.aspirate (cellLoc 0) (MEDIUM_VOL * 12 / 10) 20
          (some (Coordinate.mk (-250) 0 20)),
        Event.dispense waste (MEDIUM_VOL * 12 / 10) 300
          (some (Coordinate.mk 0 0 (-500))),
        Event.dropTips], some RunErr.outOfTips) := by
  rfl

/-- Witness for C8 at a concrete tip. -/
theorem single_tip_exhausts_at_second_column_witness :
    runBody [Tip.mk 0 0] =
      ([Event.setup, Event.pickUpTips (Tip.mk 0 0),
        Event.aspirate (cellLoc 0) (MEDIUM_VOL * 12 / 10) 20
          (some (Coordinate.mk (-250) 0 20)),
        Event.dispense waste (MEDIUM_VOL * 12 / 10) 300
          (some (Coordinate.mk 0 0 (-500))),
        Event.dropTips], some RunErr.outOfTips) :=
  single_tip_exhausts_at_second_column (Tip.mk 0 0)

-- ──────────────────────────────────────
-- C9

/-- C9: with the actual deck's tip stream the run succeeds, and its trace is
exactly setup, then the five step traces in declared order (remove medium,
wash-add, wash-remove, lysis-add, reagent-add) with no interleaving and no
step skipped, then finish; within every step the working-plate columns are
addressed in increasing order 0 through 11 (A1 through A12). -/
theorem protocol_order :
    runTrace = [Event.setup] ++ step1Trace ++ step2Trace ++ step3Trace ++
      step4Trace ++ step5Trace ++ [Event.finish] ∧
    (step1Trace.filterMap Event.targetCol).dedup = List.range TOTAL_COL ∧
    (step2Trace.filterMap Event.targetCol).dedup = List.range TOTAL_COL ∧
    (step3Trace.filterMap Event.targetCol).dedup = List.range TOTAL_COL ∧
    (step4Trace.filterMap Event.targetCol).dedup = List.range TOTAL_COL ∧
    (step5Trace.filterMap Event.targetCol).dedup = List.range TOTAL_COL ∧
    (runBody fullTips).2 = none := by decide

-- ──────────────────────────────────────
-- C10

/-- C10: the deck's tip-rack list is four aliases of the single constructed
rack instance `tiprack_i`, so the allocator's sequence is that rack's 96
tip positions enumerated four times — 384 list entries but only 96 distinct
tips. -/
theorem tip_rack_aliasing :
    tip_racks = List.replicate 4 tiprack_i ∧
    tipSeq tip_racks =
      tiprack_i.tipList ++ tiprack_i.tipList ++ tiprack_i.tipList ++ tiprack_i.tipList ∧
    (tipSeq tip_racks).length = 384 ∧
    (tipSeq tip_racks).dedup.length = 96 := by decide
